import Mathlib

/-!
Verification development for the multi-tenant SaaS admin bot server
(src/unnamed/part_000).  The JavaScript source is shallowly embedded:
pure data is translated to Lean structures, the stateful handlers become
explicit state-passing functions over an in-memory store model, and
machine time is modelled as milliseconds since epoch (Int, matching
JS Date.now arithmetic).
-/

namespace SaaSAdmin

/-! ### Generic keyed-collection model

JS `Map.set` and the Supabase `upsert ... onConflict` both implement
"replace the entry with this key if present, else append".  A JS `Map`
and a table with a unique composite key never hold two entries with the
same key, so association lists together with `mapSet` are an exact
extensional model. -/

/-- Insert-or-replace for an association list: replaces the first entry
whose key matches, else appends (JS `Map.set` / SQL upsert). -/
def mapSet {α β : Type} [DecidableEq α] (k : α) (v : β) :
    List (α × β) → List (α × β)
  | [] => [(k, v)]
  | p :: rest => if p.1 = k then (k, v) :: rest else p :: mapSet k v rest

/-- First-match key lookup (JS `Map.get` / `.single()` row fetch). -/
def lookupKey {α β : Type} [DecidableEq α] (k : α) :
    List (α × β) → Option β
  | [] => none
  | p :: rest => if p.1 = k then some p.2 else lookupKey k rest

/-- Number of entries carrying key `k`. -/
def countKey {α β : Type} [DecidableEq α] (k : α) : List (α × β) → Nat
  | [] => 0
  | p :: rest => (if p.1 = k then 1 else 0) + countKey k rest

theorem lookupKey_mapSet_self {α β : Type} [DecidableEq α]
    (k : α) (v : β) (m : List (α × β)) :
    lookupKey k (mapSet k v m) = some v := by
  induction m with
  | nil => simp [mapSet, lookupKey]
  | cons p rest ih =>
      by_cases h : p.1 = k <;> simp [mapSet, lookupKey, h, ih]

theorem countKey_mapSet_self {α β : Type} [DecidableEq α]
    (k : α) (v : β) (m : List (α × β)) (h : countKey k m ≤ 1) :
    countKey k (mapSet k v m) = 1 := by
  induction m with
  | nil => simp [mapSet, countKey]
  | cons p rest ih =>
      by_cases hp : p.1 = k
      · simp only [countKey, if_pos hp] at h
        simp [mapSet, if_pos hp, countKey]
        omega
      · simp only [countKey, if_neg hp] at h
        simp only [mapSet, if_neg hp, countKey, if_neg hp]
        simp only [Nat.zero_add] at h ⊢
        exact ih h

/-! ### JS string helpers -/

/-- `listStartsWith l p` is true when `p` is a prefix of `l`
(JS `String.prototype.startsWith` on the char lists). -/
def listStartsWith : List Char → List Char → Bool
  | _, [] => true
  | [], _ :: _ => false
  | c :: cs, p :: ps => c == p && listStartsWith cs ps

/-- JS `s.startsWith(p)`. -/
def jsStartsWith (s p : String) : Bool :=
  listStartsWith s.data p.data

/-- Strip leading and trailing whitespace from a char list. -/
def trimChars (l : List Char) : List Char :=
  ((l.dropWhile Char.isWhitespace).reverse.dropWhile Char.isWhitespace).reverse

/-- JS `s.trim()` (ASCII whitespace suffices for the inputs handled here). -/
def jsTrim (s : String) : String :=
  ⟨trimChars s.data⟩

/-- Value of an all-digit string, `none` otherwise.  Models the Postgres
cast applied when a text tenant id is compared against the integer `id`
column: a non-numeric id makes the `.single()` fetch fail. -/
def parseNatDigits (s : String) : Option Nat :=
  if !s.data.isEmpty && s.data.all Char.isDigit then
    some (s.data.foldl (fun acc c => acc * 10 + (c.toNat - 48)) 0)
  else
    none

/-! ### Session data model

Embeds the JS session objects handled by `getSession` / `saveSession`
(src/unnamed/part_000 lines 116-179).  A JS object field that may be
absent is an `Option`; `none` covers both `undefined` and `null`. -/

/-- One linked messaging instance (the objects pushed at line 742). -/
structure WaInstance where
  id : String
  wuzapiId : String
  token : String
  name : String
  isConnected : Bool
  deriving DecidableEq

/-- The `session.whatsapp` substructure. -/
structure WhatsappBag where
  instances : List WaInstance
  maxInstances : Option Nat
  deriving DecidableEq

/-- The `session.affiliate` substructure. -/
structure AffiliateBag where
  balance : Int
  totalEarned : Int
  referralsCount : Nat
  deriving DecidableEq

/-- A session object.  `reports` is the free-form report bag, modelled
as an opaque key-value list (`some []` is the empty bag `{}`). -/
structure SessionObj where
  stage : Option String
  isVip : Option Bool
  whatsapp : Option WhatsappBag
  affiliate : Option AffiliateBag
  reports : Option (List (String × String))
  temp_sync_id : Option String
  temp_openai_key : Option String
  deriving DecidableEq

/-- The default session written for a fresh (tenant, user) pair
(lines 149-159). -/
def defaultSession : SessionObj where
  stage := some "START"
  isVip := some false
  whatsapp := some { instances := [], maxInstances := some 1 }
  affiliate := some { balance := 0, totalEarned := 0, referralsCount := 0 }
  reports := some []
  temp_sync_id := none
  temp_openai_key := none

/-- The auto-healing applied to a stored record on a durable read
(lines 144-147): fills `whatsapp`, `affiliate` and `stage` when absent.
The report bag is not touched by this step. -/
def healSession (s : SessionObj) : SessionObj :=
  { s with
    whatsapp := some (s.whatsapp.getD { instances := [], maxInstances := some 1 })
    affiliate := some (s.affiliate.getD { balance := 0, totalEarned := 0, referralsCount := 0 })
    stage := some (s.stage.getD "READY") }

/-- One entry of the in-process cache (line 117). -/
structure CacheEntry where
  data : SessionObj
  timestamp : Int
  deriving DecidableEq

/-- The process store: the session cache keyed by (tenant id, chat id)
and the `bot_sessions` table keyed by the same composite key.  The JS
cache key is the string `tenantId_chatId`; since tenant ids are
underscore-free digit strings this is injective in the pair. -/
structure Store where
  cache : List ((Nat × String) × CacheEntry)
  db : List ((Nat × String) × SessionObj)
  deriving DecidableEq

/-- Cache TTL in milliseconds (line 118). -/
def CACHE_TTL : Int := 5 * 60 * 1000

/-- `saveSession` (lines 167-179): write-through cache set plus an
upsert keyed on (tenant_id, chat_id).  Durable-write errors are
swallowed in the source, so the write is modelled as succeeding. -/
def saveSession (st : Store) (now : Int) (tid : Nat) (chat : String)
    (s : SessionObj) : Store where
  cache := mapSet (tid, chat) { data := s, timestamp := now } st.cache
  db := mapSet (tid, chat) s st.db

/-- Result of a `getSession` call: the returned session, the updated
store, and whether a durable read was performed. -/
structure GetResult where
  session : SessionObj
  store : Store
  dbRead : Bool
  deriving DecidableEq

/-- The durable-read path of `getSession` (lines 129-164): a stored
record is healed and cached; an absent record yields the default
session, persisted through `saveSession` and cached. -/
def getSessionFromDb (st : Store) (now : Int) (tid : Nat) (chat : String) :
    GetResult :=
  match lookupKey (tid, chat) st.db with
  | some stored =>
      let healed := healSession stored
      { session := healed
        store := { st with
          cache := mapSet (tid, chat) { data := healed, timestamp := now } st.cache }
        dbRead := true }
  | none =>
      let st1 := saveSession st now tid chat defaultSession
      { session := defaultSession
        store := { st1 with
          cache := mapSet (tid, chat) { data := defaultSession, timestamp := now } st1.cache }
        dbRead := true }

/-- `getSession` (lines 120-165): a fresh cache entry short-circuits
the durable read; otherwise the durable path runs. -/
def getSession (st : Store) (now : Int) (tid : Nat) (chat : String) :
    GetResult :=
  match lookupKey (tid, chat) st.cache with
  | some cached =>
      if now - cached.timestamp < CACHE_TTL then
        { session := cached.data, store := st, dbRead := false }
      else getSessionFromDb st now tid chat
  | none => getSessionFromDb st now tid chat

/-- Whether the cache holds a fresh (within-TTL) entry for the key. -/
def cacheFresh (st : Store) (now : Int) (tid : Nat) (chat : String) : Bool :=
  match lookupKey (tid, chat) st.cache with
  | some cached => decide (now - cached.timestamp < CACHE_TTL)
  | none => false

/-- `checkUserExists` (lines 197-205): a row fetch by the composite
key, coerced to a boolean. -/
def checkUserExists (st : Store) (tid : Nat) (chat : String) : Bool :=
  (lookupKey (tid, chat) st.db).isSome

/-- Structural completeness in the sense of claim C2: the stage tag,
the messaging-instance list and the report bag are all present. -/
def sessionComplete (s : SessionObj) : Bool :=
  s.stage.isSome && s.whatsapp.isSome && s.reports.isSome

/-! ### Tenant records and the per-tenant middleware pipeline -/

/-- A row of the `tenants` table, together with the in-memory
`activeUserCount` attached to the tenant object at start-up (line 283).
Nullable columns are `Option`; timestamps are epoch milliseconds. -/
structure Tenant where
  id : Nat
  name : String
  telegram_token : String
  owner_chat_id : Option String
  is_active : Bool
  expiration_date : Option Int
  max_users : Option Nat
  activeUserCount : Nat
  syncpay_client_id : Option String
  syncpay_client_secret : Option String
  openai_api_key : Option String
  openai_model : Option String
  system_prompt : Option String
  deriving DecidableEq

/-- The expiration test of the middleware (lines 294-297):
`tenant.expiration_date` is set and `now > expiration`. -/
def expiredNow (t : Tenant) (now : Int) : Bool :=
  match t.expiration_date with
  | some e => decide (e < now)
  | none => false

/-- The middleware owner test `String(ctx.chat.id) !== tenant.owner_chat_id`
(lines 297 and 304), negated: the event comes from the owner chat. -/
def isOwnerChat (t : Tenant) (chat : String) : Bool :=
  decide (t.owner_chat_id = some chat)

/-- `tenant.max_users || 10` (line 315): `null` and `0` are falsy. -/
def effectiveMaxUsers (t : Tenant) : Nat :=
  match t.max_users with
  | some n => if n = 0 then 10 else n
  | none => 10

/-- Admission decision of the gate middleware. -/
inductive GateOutcome where
  | expiredReply
  | limitReply (maxUsers : Nat)
  | admitted (session : SessionObj)
  deriving DecidableEq

/-- Result of one middleware run: the decision, the tenant object
(whose in-memory counter may have been bumped) and the store. -/
structure MwResult where
  outcome : GateOutcome
  tenant : Tenant
  store : Store
  deriving DecidableEq

/-- The tenant-bot middleware (lines 290-333): expiration check, then
the quota check for non-owner users absent from cache and storage, then
the session load injected into the context.  A refusal replies and
short-circuits: no later handler runs and no state changes. -/
def tenantMiddleware (t : Tenant) (st : Store) (now : Int) (chat : String) :
    MwResult :=
  if expiredNow t now && !isOwnerChat t chat then
    { outcome := .expiredReply, tenant := t, store := st }
  else if !isOwnerChat t chat
      && (lookupKey (t.id, chat) st.cache).isNone
      && !checkUserExists st t.id chat then
    if effectiveMaxUsers t ≤ t.activeUserCount then
      { outcome := .limitReply (effectiveMaxUsers t), tenant := t, store := st }
    else
      let t' := { t with activeUserCount := t.activeUserCount + 1 }
      let r := getSession st now t.id chat
      { outcome := .admitted r.session, tenant := t', store := r.store }
  else
    let r := getSession st now t.id chat
    { outcome := .admitted r.session, tenant := t, store := r.store }

/-! ### Owner wizard text handler -/

/-- Replies the owner wizard text handler can produce. -/
inductive OwnerReply where
  | cancelled
  | syncStepTwo
  | syncSaved
  | invalidKey
  | chooseModel
  | promptSaved
  deriving DecidableEq

/-- A write issued against the `tenants` table. -/
inductive TenantWrite where
  | syncpay (clientId : Option String) (secret : String)
  | prompt (p : String)
  deriving DecidableEq

/-- Outcome of the owner wizard `bot.on("text")` handler. -/
structure OwnerTextResult where
  next : Bool
  reply : Option OwnerReply
  session : SessionObj
  saved : Bool
  tenantWrites : List TenantWrite
  deriving DecidableEq

/-- The owner wizard text handler (lines 448-540).  `isOwner` is the
guard `String(ctx.chat.id) === String(ctx.tenant.owner_chat_id)`;
non-owners fall through to the next handler.  `saved` records whether
`ctx.save()` persisted the session; `tenantWrites` records updates
issued against the `tenants` table (none fail in this model, matching
the success path of the source). -/
def ownerTextHandler (isOwner : Bool) (session : SessionObj) (text : String) :
    OwnerTextResult :=
  if !isOwner then
    { next := true, reply := none, session := session, saved := false, tenantWrites := [] }
  else if jsStartsWith text "/" && !decide (text = "/cancelar") then
    { next := true, reply := none, session := session, saved := false, tenantWrites := [] }
  else if decide (text = "/cancelar") then
    { next := false, reply := some .cancelled
      session := { session with stage := some "READY" }
      saved := true, tenantWrites := [] }
  else if decide (session.stage = some "OWNER_WAIT_SYNCPAY_ID") then
    { next := false, reply := some .syncStepTwo
      session := { session with
        temp_sync_id := some (jsTrim text)
        stage := some "OWNER_WAIT_SYNCPAY_SECRET" }
      saved := true, tenantWrites := [] }
  else if decide (session.stage = some "OWNER_WAIT_SYNCPAY_SECRET") then
    { next := false, reply := some .syncSaved
      session := { session with stage := some "READY", temp_sync_id := none }
      saved := true
      tenantWrites := [.syncpay session.temp_sync_id (jsTrim text)] }
  else if decide (session.stage = some "OWNER_WAIT_OPENAI_KEY") then
    if !jsStartsWith (jsTrim text) "sk-" then
      { next := false, reply := some .invalidKey
        session := session, saved := false, tenantWrites := [] }
    else
      { next := false, reply := some .chooseModel
        session := { session with
          temp_openai_key := some (jsTrim text)
          stage := some "OWNER_WAIT_OPENAI_MODEL" }
        saved := true, tenantWrites := [] }
  else if decide (session.stage = some "OWNER_WAIT_PROMPT") then
    { next := false, reply := some .promptSaved
      session := { session with stage := some "READY" }
      saved := true
      tenantWrites := [.prompt (jsTrim text)] }
  else
    { next := true, reply := none, session := session, saved := false, tenantWrites := [] }

/-! ### Tenant lifecycle registry -/

/-- Registry effect of `startTenantBot` (lines 275-279 and 887): when
an instance is already registered its stop is attempted with failures
swallowed, then the registry entry is replaced.  `bot` is the fresh
instance handle; `stopFails` says whether the attempted stop throws —
the result is the same either way. -/
structure StartEffect where
  registry : List (Nat × Nat)
  stoppedExisting : Bool
  deriving DecidableEq

def startTenantBotRegistry (reg : List (Nat × Nat)) (tid : Nat) (bot : Nat)
    (stopFails : Bool) : StartEffect :=
  let had := (lookupKey tid reg).isSome
  let _ := stopFails
  { registry := mapSet tid bot reg, stoppedExisting := had }

/-! ### Subscription reconciler (`POST /webhook/master`, lines 938-1021) -/

/-- Fields destructured from the webhook payload.  `clientEmail` is
`payload.client?.email` (absent client or email collapse to `none`). -/
structure WebhookPayload where
  payId : Option String
  status : Option String
  clientEmail : Option String
  external_id : Option String
  deriving DecidableEq

/-- The request body: `req.body.data || req.body` (line 940). -/
structure WebhookBody where
  data : Option WebhookPayload
  base : WebhookPayload
  deriving DecidableEq

/-- Status strings accepted as a completed payment (line 947). -/
def isEligibleStatus (s : Option String) : Bool :=
  s == some "completed" || s == some "PAID" || s == some "RECEIVED"

/-- Matches the regex `tenant_(\d+)@` at the head of the char list:
the literal `tenant_`, then one or more digits, then `@`.  Since the
digit run is followed by a non-digit in the pattern, maximal munch is
equivalent to the backtracking regex semantics. -/
def matchTenantAt (l : List Char) : Option String :=
  if listStartsWith l "tenant_".data then
    let rest := l.drop 7
    let ds := rest.takeWhile Char.isDigit
    if !ds.isEmpty && listStartsWith (rest.drop ds.length) "@".data then
      some ⟨ds⟩
    else none
  else none

/-- First match of `tenant_(\d+)@` anywhere in the string (the JS
`email.match(...)` scan, line 955). -/
def scanTenantEmail : List Char → Option String
  | [] => none
  | c :: rest =>
      match matchTenantAt (c :: rest) with
      | some s => some s
      | none => scanTenantEmail rest

/-- The chars up to the next occurrence of `SUB_`, modelling the JS
`split("SUB_")[1]` on a string that starts with `SUB_` (line 961). -/
def takeUntilSub : List Char → List Char
  | [] => []
  | c :: r =>
      if listStartsWith (c :: r) "SUB_".data then []
      else c :: takeUntilSub r

/-- Tenant-id extraction (lines 953-962): first the email-embedded id,
then the `SUB_`-prefixed `external_id` fallback. -/
def resolveTenantId (p : WebhookPayload) : Option String :=
  let fromEmail :=
    match p.clientEmail with
    | some e => scanTenantEmail e.data
    | none => none
  match fromEmail with
  | some tid => some tid
  | none =>
      match p.external_id with
      | some ex =>
          if jsStartsWith ex "SUB_" then some ⟨takeUntilSub (ex.data.drop 4)⟩
          else none
      | none => none

/-- One day in milliseconds. -/
def DAY_MS : Int := 24 * 60 * 60 * 1000

/-- The renewal arithmetic (lines 984-990): base is the current
expiration when it is still in the future, else now; plus 30 days.
`setDate(getDate()+30)` is modelled as 30 calendar days of
milliseconds. -/
def renewalExpiration (expiration : Option Int) (now : Int) : Int :=
  (match expiration with
   | some e => if e > now then e else now
   | none => now) + 30 * DAY_MS

/-- The claim-side formulation `max(E, now) + 30 days`. -/
def claimedRenewal (expiration : Option Int) (now : Int) : Int :=
  (match expiration with
   | some e => max e now
   | none => now) + 30 * DAY_MS

/-- HTTP responses of the webhook handler.  `ignored` and `success`
are 200s; `badRequest` is the 400, `notFound` the 404. -/
inductive WebhookResponse where
  | ignored (statusEcho : Option String)
  | badRequest (msg : String)
  | notFound (msg : String)
  | success (new_expiration : Int)
  deriving DecidableEq

/-- `POST /webhook/master` (lines 938-1021): status filter, tenant
resolution, renewal computation and the `tenants` update.  The Telegram
notification push (lines 1004-1013) does not touch the table or the
response and is not modelled. -/
def webhookMaster (body : WebhookBody) (db : List Tenant) (now : Int) :
    WebhookResponse × List Tenant :=
  let payload := body.data.getD body.base
  if !isEligibleStatus payload.status then
    (.ignored payload.status, db)
  else
    match resolveTenantId payload with
    | none => (.badRequest "Tenant ID not found in payload", db)
    | some tidStr =>
        match parseNatDigits tidStr with
        | none => (.notFound "Tenant not found", db)
        | some n =>
            match db.find? (fun t => t.id == n) with
            | none => (.notFound "Tenant not found", db)
            | some t =>
                let newExp := renewalExpiration t.expiration_date now
                (.success newExp,
                 db.map (fun x =>
                   if x.id == n then
                     { x with expiration_date := some newExp, is_active := true }
                   else x))

/-! ### Master control-plane security middleware (lines 1031-1044) -/

/-- Decision of the master bot security middleware. -/
inductive MasterGate where
  | next
  | warnReply
  | deny
  deriving DecidableEq

/-- The middleware itself: the literal text `/meu_id` always passes;
with no configured admin id every other update gets the configuration
warning; a chat id differing from the admin id is silently dropped. -/
def masterSecurity (adminId : Option String) (chatId : String)
    (msgText : Option String) : MasterGate :=
  if decide (msgText = some "/meu_id") then .next
  else
    match adminId with
    | none => .warnReply
    | some aid => if decide (chatId = aid) then .next else .deny

/-- What an inbound master-bot update produces end to end. -/
inductive MasterOutcome where
  | configWarning
  | silent
  | idReply (chatId : String)
  | handled
  deriving DecidableEq

/-- Middleware plus dispatch: when the middleware passes, the literal
`/meu_id` is answered by the `meu_id` command handler (line 1285) with
the sender id; any other admitted update reaches the ordinary command,
action and wizard handlers (`handled`). -/
def masterPipeline (adminId : Option String) (chatId : String)
    (msgText : Option String) : MasterOutcome :=
  match masterSecurity adminId chatId msgText with
  | .warnReply => .configWarning
  | .deny => .silent
  | .next =>
      if decide (msgText = some "/meu_id") then .idReply chatId else .handled

/-! ### Concrete fixtures used by witnesses and counterexamples -/

/-- The empty process store. -/
def emptyStore : Store where
  cache := []
  db := []

/-- A concrete tenant record. -/
def baseTenant : Tenant where
  id := 7
  name := "Acme"
  telegram_token := "123:ABC"
  owner_chat_id := some "900"
  is_active := false
  expiration_date := some 500
  max_users := some 10
  activeUserCount := 0
  syncpay_client_id := none
  syncpay_client_secret := none
  openai_api_key := none
  openai_model := none
  system_prompt := none

/-- A tenant whose `max_users` column holds 0. -/
def tZeroLimit : Tenant :=
  { baseTenant with
    max_users := some 0
    activeUserCount := 0
    expiration_date := none }

/-- A tenant of quota 1 whose live counter already reached 1. -/
def tQuotaFull : Tenant :=
  { baseTenant with
    max_users := some 1
    activeUserCount := 1
    expiration_date := none }

/-- A stored session record that predates the report-bag field: its
`reports` substructure is absent. -/
def cxStoredSession : SessionObj where
  stage := some "READY"
  isVip := none
  whatsapp := some { instances := [], maxInstances := some 1 }
  affiliate := some { balance := 0, totalEarned := 0, referralsCount := 0 }
  reports := none
  temp_sync_id := none
  temp_openai_key := none

/-- A store holding only that legacy record, with a cold cache. -/
def cxStore : Store where
  cache := []
  db := [((1, "77"), cxStoredSession)]

/-- A session sitting in the AI-key-collection stage. -/
def sAwaitKey : SessionObj :=
  { defaultSession with stage := some "OWNER_WAIT_OPENAI_KEY" }

/-- A session mid-way through the SyncPay flow, carrying the scratch
client id entered at the previous step. -/
def sMidSync : SessionObj :=
  { defaultSession with
    stage := some "OWNER_WAIT_SYNCPAY_SECRET"
    temp_sync_id := some "PARTIAL" }

/-- A payload with every field absent. -/
def emptyPayload : WebhookPayload where
  payId := none
  status := none
  clientEmail := none
  external_id := none

/-- A completed-payment notification resolving to tenant 7 through the
email strategy. -/
def wPayloadDone : WebhookPayload where
  payId := some "pay-1"
  status := some "completed"
  clientEmail := some "tenant_7@venux.com"
  external_id := none

/-- The completed notification wrapped under `data`, as SyncPay sends it. -/
def wBodyDone : WebhookBody where
  data := some wPayloadDone
  base := emptyPayload

/-- A pending-status notification for the same charge. -/
def wPayloadPending : WebhookPayload :=
  { wPayloadDone with status := some "pending" }

/-- The pending notification wrapped under `data`. -/
def wBodyPending : WebhookBody where
  data := some wPayloadPending
  base := emptyPayload

/-! ### Theorems -/

/-- Claim C3: for every tenant id, user id and session value,
`saveSession` followed by a `getSession` within the cache TTL returns a
session equal to the saved one, served from the cache with no
durable-store read and no further store change. -/
theorem save_get_roundtrip (st : Store) (t : Nat) (u : String)
    (S : SessionObj) (now now' : Int) (h : now' - now < CACHE_TTL) :
    getSession (saveSession st now t u S) now' t u =
      { session := S, store := saveSession st now t u S, dbRead := false } := by
  have hc : lookupKey (t, u) (saveSession st now t u S).cache =
      some { data := S, timestamp := now } := by
    simp [saveSession, lookupKey_mapSet_self]
  simp [getSession, hc, if_pos h]

/-- Witness for C3 at a concrete store, session and pair of instants. -/
theorem save_get_roundtrip_witness :
    getSession (saveSession emptyStore 0 1 "u" defaultSession) 2 1 "u" =
      { session := defaultSession
        store := saveSession emptyStore 0 1 "u" defaultSession
        dbRead := false } :=
  save_get_roundtrip emptyStore 1 "u" defaultSession 0 2 (by decide)

/-- Counterexample for claim C2: on a durable read of a stored record
whose report bag is absent, `getSession` returns a session that is not
structurally complete — the auto-healing of lines 144-147 synthesizes
the stage, instance list and affiliate bag but never the report bag. -/
theorem getSession_missing_reports_cx :
    sessionComplete (getSession cxStore 0 1 "77").session = false := by
  decide

/-- Claim C2 as amended: `getSession` is total — with no fresh cache
entry, a read of a stored record always yields a session whose stage,
messaging-instance substructure and affiliate substructure are present
(the report bag is healed only in fresh defaults), and an absent record
yields the structurally complete default session (stage START, empty
instance list, empty report bag), persisted to both the durable table
and the cache. -/
theorem getSession_autoheal (st : Store) (now : Int) (tid : Nat)
    (chat : String) (hmiss : cacheFresh st now tid chat = false) :
    ((getSession st now tid chat).session.stage.isSome = true ∧
     (getSession st now tid chat).session.whatsapp.isSome = true ∧
     (getSession st now tid chat).session.affiliate.isSome = true) ∧
    (lookupKey (tid, chat) st.db = none →
      (getSession st now tid chat).session = defaultSession ∧
      lookupKey (tid, chat) (getSession st now tid chat).store.db =
        some defaultSession ∧
      lookupKey (tid, chat) (getSession st now tid chat).store.cache =
        some { data := defaultSession, timestamp := now } ∧
      sessionComplete (getSession st now tid chat).session = true) := by
  have hg : getSession st now tid chat = getSessionFromDb st now tid chat := by
    unfold cacheFresh at hmiss
    unfold getSession
    cases hc : lookupKey (tid, chat) st.cache with
    | none => rfl
    | some c =>
        rw [hc] at hmiss
        simp only [decide_eq_false_iff_not] at hmiss
        simp only [if_neg hmiss]
  rw [hg]
  cases hdb : lookupKey (tid, chat) st.db with
  | some stored =>
      have hfd : getSessionFromDb st now tid chat =
          ⟨healSession stored,
           ⟨mapSet (tid, chat) ⟨healSession stored, now⟩ st.cache, st.db⟩,
           true⟩ := by
        unfold getSessionFromDb
        rw [hdb]
      constructor
      · rw [hfd]
        simp [healSession]
      · intro hnone
        exact absurd hnone (by simp)
  | none =>
      have hfd : getSessionFromDb st now tid chat =
          ⟨defaultSession,
           ⟨mapSet (tid, chat) ⟨defaultSession, now⟩
              (saveSession st now tid chat defaultSession).cache,
            (saveSession st now tid chat defaultSession).db⟩,
           true⟩ := by
        unfold getSessionFromDb
        rw [hdb]
      constructor
      · rw [hfd]
        simp [defaultSession]
      · intro _
        rw [hfd]
        refine ⟨rfl, ?_, ?_, rfl⟩
        · simp [saveSession, lookupKey_mapSet_self]
        · simp [saveSession, lookupKey_mapSet_self]

/-- Witness for the amended C2 at the empty store. -/
theorem getSession_autoheal_witness :
    ((getSession emptyStore 0 1 "u").session.stage.isSome = true ∧
     (getSession emptyStore 0 1 "u").session.whatsapp.isSome = true ∧
     (getSession emptyStore 0 1 "u").session.affiliate.isSome = true) ∧
    (lookupKey (1, "u") emptyStore.db = none →
      (getSession emptyStore 0 1 "u").session = defaultSession ∧
      lookupKey (1, "u") (getSession emptyStore 0 1 "u").store.db =
        some defaultSession ∧
      lookupKey (1, "u") (getSession emptyStore 0 1 "u").store.cache =
        some { data := defaultSession, timestamp := 0 } ∧
      sessionComplete (getSession emptyStore 0 1 "u").session = true) :=
  getSession_autoheal emptyStore 0 1 "u" (by decide)

/-- Claim C7: starting a tenant bot twice leaves exactly one registry
entry for that tenant id, the second start having stopped the instance
registered by the first; the registry outcome is independent of whether
the attempted stop fails. -/
theorem start_idempotent (reg : List (Nat × Nat)) (tid b1 b2 : Nat)
    (f1 f2 : Bool) (hinv : countKey tid reg ≤ 1) :
    countKey tid (startTenantBotRegistry
      (startTenantBotRegistry reg tid b1 f1).registry tid b2 f2).registry = 1 ∧
    (startTenantBotRegistry
      (startTenantBotRegistry reg tid b1 f1).registry tid b2 f2).stoppedExisting
      = true := by
  have h1 : countKey tid (mapSet tid b1 reg) = 1 :=
    countKey_mapSet_self tid b1 reg hinv
  constructor
  · exact countKey_mapSet_self tid b2 (mapSet tid b1 reg) h1.le
  · show (lookupKey tid (mapSet tid b1 reg)).isSome = true
    rw [lookupKey_mapSet_self]
    rfl

/-- Witness for C7 on the empty registry, with the second stop failing. -/
theorem start_idempotent_witness :
    countKey 5 (startTenantBotRegistry
      (startTenantBotRegistry [] 5 1 false).registry 5 2 true).registry = 1 ∧
    (startTenantBotRegistry
      (startTenantBotRegistry [] 5 1 false).registry 5 2 true).stoppedExisting
      = true :=
  start_idempotent [] 5 1 2 false true (by decide)

/-- Claim C4: for a tenant whose expiration is strictly in the past,
every non-owner event is refused with the fixed plan-expired reply and
the pipeline short-circuits with tenant and store untouched, while an
owner event passes the check and is admitted. -/
theorem expiration_gate (t : Tenant) (st : Store) (now : Int)
    (chat : String) (e : Int) (hexp : t.expiration_date = some e)
    (hpast : e < now) :
    (t.owner_chat_id ≠ some chat →
      tenantMiddleware t st now chat =
        { outcome := .expiredReply, tenant := t, store := st }) ∧
    (t.owner_chat_id = some chat →
      (tenantMiddleware t st now chat).outcome =
        .admitted (getSession st now t.id chat).session) := by
  have hex : expiredNow t now = true := by
    simp [expiredNow, hexp, hpast]
  constructor
  · intro hno
    have how : isOwnerChat t chat = false := by
      simp [isOwnerChat, hno]
    simp [tenantMiddleware, hex, how]
  · intro hyes
    have how : isOwnerChat t chat = true := by
      simp [isOwnerChat, hyes]
    simp [tenantMiddleware, hex, how]

/-- Witness for C4 at a concrete expired tenant, for a non-owner chat. -/
theorem expiration_gate_witness :
    tenantMiddleware baseTenant emptyStore 1000 "42" =
      { outcome := .expiredReply, tenant := baseTenant, store := emptyStore } :=
  (expiration_gate baseTenant emptyStore 1000 "42" 500 rfl (by decide)).1
    (by decide)

/-- Counterexample for claim C5: a tenant whose `max_users` column
holds 0 has, per the claim, reached its quota at counter 0, so a fresh
non-owner user should be refused with the counter unchanged; the code
evaluates `tenant.max_users || 10`, treats the limit as 10, admits the
user and bumps the counter to 1. -/
theorem quota_zero_limit_cx :
    (tenantMiddleware tZeroLimit emptyStore 0 "42").outcome =
      .admitted defaultSession ∧
    (tenantMiddleware tZeroLimit emptyStore 0 "42").tenant.activeUserCount
      = 1 := by
  decide

/-- Claim C5 as amended: for a tenant whose `max_users` column holds a
positive `N` (for 0 or null the code substitutes the default limit 10),
a previously-unseen non-owner user — absent from cache and storage — is
refused with the limit reply and an unchanged counter when the live
counter has reached `N`, and otherwise is admitted with the counter
incremented by exactly one. -/
theorem quota_gate (t : Tenant) (st : Store) (now : Int) (chat : String)
    (N : Nat) (hN : t.max_users = some N) (hpos : 1 ≤ N)
    (hnotowner : t.owner_chat_id ≠ some chat)
    (hnotexp : expiredNow t now = false)
    (hnocache : lookupKey (t.id, chat) st.cache = none)
    (hnodb : lookupKey (t.id, chat) st.db = none) :
    (N ≤ t.activeUserCount →
      tenantMiddleware t st now chat =
        { outcome := .limitReply N, tenant := t, store := st }) ∧
    (t.activeUserCount < N →
      (tenantMiddleware t st now chat).outcome =
        .admitted (getSession st now t.id chat).session ∧
      (tenantMiddleware t st now chat).tenant.activeUserCount =
        t.activeUserCount + 1) := by
  have hmax : effectiveMaxUsers t = N := by
    simp only [effectiveMaxUsers, hN]
    rw [if_neg (by omega)]
  have how : isOwnerChat t chat = false := by
    simp [isOwnerChat, hnotowner]
  constructor
  · intro hge
    simp [tenantMiddleware, hnotexp, how, hnocache, checkUserExists, hnodb,
      hmax, if_pos hge]
  · intro hlt
    have hnle : ¬ N ≤ t.activeUserCount := by omega
    simp [tenantMiddleware, hnotexp, how, hnocache, checkUserExists, hnodb,
      hmax, if_neg hnle]

/-- Witness for the amended C5: quota 1, counter already 1, fresh user
refused with the counter unchanged. -/
theorem quota_gate_witness :
    tenantMiddleware tQuotaFull emptyStore 0 "42" =
      { outcome := .limitReply 1, tenant := tQuotaFull, store := emptyStore } :=
  (quota_gate tQuotaFull emptyStore 0 "42" 1 rfl (by decide) (by decide)
    (by decide) (by decide) (by decide)).1 (by decide)

/-- Connection between the source renewal arithmetic and the claim
formulation `max(E, now) + 30 days`. -/
theorem renewalExpiration_eq_claimed (E : Option Int) (now : Int) :
    renewalExpiration E now = claimedRenewal E now := by
  cases E with
  | none => rfl
  | some e =>
      show (if e > now then e else now) + 30 * DAY_MS = max e now + 30 * DAY_MS
      congr 1
      rcases lt_or_ge now e with h | h
      · rw [if_pos h, max_eq_left h.le]
      · rw [if_neg (not_lt.mpr h), max_eq_right h]

/-- Claim C1: a completed-payment notification that resolves to a
tenant present in the table responds success carrying
`max(E, now) + 30 days` and persists exactly that expiration with
`is_active` forced to true on that tenant's row. -/
theorem webhook_renews (body : WebhookBody) (db : List Tenant) (now : Int)
    (payload : WebhookPayload) (tidStr : String) (n : Nat) (t : Tenant)
    (hbody : body.data.getD body.base = payload)
    (hstat : isEligibleStatus payload.status = true)
    (hres : resolveTenantId payload = some tidStr)
    (hparse : parseNatDigits tidStr = some n)
    (hfind : db.find? (fun x => x.id == n) = some t) :
    (webhookMaster body db now).1 =
      .success (claimedRenewal t.expiration_date now) ∧
    ∀ x ∈ (webhookMaster body db now).2, x.id = n →
      x.expiration_date = some (claimedRenewal t.expiration_date now) ∧
      x.is_active = true := by
  have hw : webhookMaster body db now =
      (.success (renewalExpiration t.expiration_date now),
       db.map (fun x =>
         if x.id == n then
           { x with
             expiration_date := some (renewalExpiration t.expiration_date now)
             is_active := true }
         else x)) := by
    unfold webhookMaster
    rw [hbody]
    simp only [hstat, Bool.not_true, Bool.false_eq_true, if_false, hres,
      hparse, hfind]
  rw [hw, renewalExpiration_eq_claimed]
  refine ⟨rfl, ?_⟩
  intro x hx hid
  rcases List.mem_map.mp hx with ⟨y, _, rfl⟩
  by_cases h : y.id == n
  · simp [h]
  · rw [if_neg (by simpa using h)] at hid ⊢
    exact absurd hid (by simpa using h)

/-- Witness for C1: the completed SyncPay notification for tenant 7. -/
theorem webhook_renews_witness :
    (webhookMaster wBodyDone [baseTenant] 1000).1 =
      .success (claimedRenewal baseTenant.expiration_date 1000) ∧
    ∀ x ∈ (webhookMaster wBodyDone [baseTenant] 1000).2, x.id = 7 →
      x.expiration_date =
        some (claimedRenewal baseTenant.expiration_date 1000) ∧
      x.is_active = true :=
  webhook_renews wBodyDone [baseTenant] 1000 wPayloadDone "7" 7 baseTenant
    rfl (by decide) (by decide) (by decide) (by decide)

/-- Claim C6: a notification whose status is not one of the completed
statuses is answered with the 200 ignored response and the tenant table
is left exactly as it was. -/
theorem webhook_ignores (body : WebhookBody) (db : List Tenant) (now : Int)
    (payload : WebhookPayload)
    (hbody : body.data.getD body.base = payload)
    (hstat : isEligibleStatus payload.status = false) :
    webhookMaster body db now = (.ignored payload.status, db) := by
  unfold webhookMaster
  rw [hbody]
  simp [hstat]

/-- Witness for C6: the pending notification leaves the table alone. -/
theorem webhook_ignores_witness :
    webhookMaster wBodyPending [baseTenant] 1000 =
      (.ignored wPayloadPending.status, [baseTenant]) :=
  webhook_ignores wBodyPending [baseTenant] 1000 wPayloadPending rfl
    (by decide)

/-- Counterexample for claim C8: the input text `" sk-abc"` does not
start with the literal prefix `sk-`, yet the handler trims it first and
advances the stage to the model-choice stage instead of replying with
the corrective validation message. -/
theorem openai_key_raw_text_cx :
    jsStartsWith " sk-abc" "sk-" = false ∧
    (ownerTextHandler true sAwaitKey " sk-abc").session.stage =
      some "OWNER_WAIT_OPENAI_MODEL" ∧
    (ownerTextHandler true sAwaitKey " sk-abc").reply = some .chooseModel := by
  decide

/-- Claim C8 as amended: in the AI-key-collection stage, for non-command
owner input, when the trimmed text does not start with `sk-` the handler
replies with the corrective message, leaves the session untouched and
unsaved, and writes nothing to the tenant record; when the trimmed text
does start with `sk-` it stores the trimmed key in the scratch field and
advances to the model-choice stage, still writing nothing to the tenant
record. -/
theorem openai_key_step (s : SessionObj) (text : String)
    (hstage : s.stage = some "OWNER_WAIT_OPENAI_KEY")
    (hnotcmd : jsStartsWith text "/" = false) :
    (jsStartsWith (jsTrim text) "sk-" = false →
      ownerTextHandler true s text =
        { next := false, reply := some .invalidKey, session := s,
          saved := false, tenantWrites := [] }) ∧
    (jsStartsWith (jsTrim text) "sk-" = true →
      (ownerTextHandler true s text).session.stage =
        some "OWNER_WAIT_OPENAI_MODEL" ∧
      (ownerTextHandler true s text).session.temp_openai_key =
        some (jsTrim text) ∧
      (ownerTextHandler true s text).tenantWrites = [] ∧
      (ownerTextHandler true s text).saved = true) := by
  have hne : text ≠ "/cancelar" := by
    intro h
    rw [h] at hnotcmd
    exact absurd hnotcmd (by decide)
  constructor
  · intro hbad
    simp [ownerTextHandler, hnotcmd, hne, hstage, hbad]
  · intro hgood
    simp [ownerTextHandler, hnotcmd, hne, hstage, hgood]

/-- Witness for the amended C8 at a concrete session and input. -/
theorem openai_key_step_witness :
    ownerTextHandler true sAwaitKey "abc" =
      { next := false, reply := some .invalidKey, session := sAwaitKey,
        saved := false, tenantWrites := [] } :=
  (openai_key_step sAwaitKey "abc" rfl (by decide)).1 (by decide)

/-- Counterexample for claim C9: cancelling mid-way through the SyncPay
flow resets the stage to READY but does not discard the scratch client
id — the session is persisted still carrying `temp_sync_id`. -/
theorem cancel_keeps_temp_cx :
    (ownerTextHandler true sMidSync "/cancelar").session.stage =
      some "READY" ∧
    (ownerTextHandler true sMidSync "/cancelar").session.temp_sync_id =
      some "PARTIAL" ∧
    (ownerTextHandler true sMidSync "/cancelar").saved = true := by
  decide

/-- Claim C9 as amended: the reserved cancel token resets any owner
session stage to READY and commits nothing to the durable tenant
record, but the `temp_*` scratch fields are retained in the persisted
session rather than discarded; they are cleared only by the final step
of their own flow. -/
theorem cancel_resets (s : SessionObj) :
    ownerTextHandler true s "/cancelar" =
      { next := false, reply := some .cancelled,
        session := { s with stage := some "READY" },
        saved := true, tenantWrites := [] } := by
  simp [ownerTextHandler]

/-- Counterexample for claim C10: with no operator id configured, the
message `/meu_id` does not receive the configuration warning — the
middleware passes it through and the id handler answers with the
sender's own id. -/
theorem master_unconfigured_cx :
    masterPipeline none "42" (some "/meu_id") = .idReply "42" ∧
    masterPipeline none "42" (some "/meu_id") ≠ .configWarning := by
  decide

/-- Claim C10 as amended: with an operator id configured, every update
from a different chat id is silently dropped before any handler unless
its text is literally `/meu_id`, which is answered with the sender's
own id for anyone; with no operator id configured, every update except
`/meu_id` receives the configuration warning and reaches no handler,
while `/meu_id` is still answered with the sender's id. -/
theorem master_gating (adminId : Option String) (a chatId : String)
    (msgText : Option String) :
    (adminId = some a → chatId ≠ a → msgText ≠ some "/meu_id" →
      masterPipeline adminId chatId msgText = .silent) ∧
    (msgText = some "/meu_id" →
      masterPipeline adminId chatId msgText = .idReply chatId) ∧
    (adminId = none → msgText ≠ some "/meu_id" →
      masterPipeline adminId chatId msgText = .configWarning) := by
  refine ⟨?_, ?_, ?_⟩
  · intro hadm hne hmt
    simp [masterPipeline, masterSecurity, hadm, hne, hmt]
  · intro hmt
    simp [masterPipeline, masterSecurity, hmt]
  · intro hadm hmt
    simp [masterPipeline, masterSecurity, hadm, hmt]

/-- Witness for the amended C10: a non-operator command is dropped. -/
theorem master_gating_witness :
    masterPipeline (some "1") "2" (some "/start") = .silent :=
  (master_gating (some "1") "1" "2" (some "/start")).1 rfl (by decide)
    (by decide)

end SaaSAdmin
